import Mathlib

/-!
Verification of the DFTXMLParser specification against the repository.

The repository snapshot under scrutiny ships a single Python source file,
setup.py, which builds the DFTXMLParser.vasp extension from the C sources
src/fast_atoi.c and src/fast_atof.c plus either src/vasp.pyx (when Cython
is importable) or the pregenerated src/vasp.c.  The C/Cython core itself
(fast integer conversion, fast floating-point conversion, token scanner,
array extraction engine, element dispatch/context stack) is not included
in the snapshot; the specification says so explicitly ("the referenced
source modules ... are not included in the given snapshot").  Those
components are therefore modelled here from the specification's words,
and the claims about them are settled against these models.  The build
configuration, which is present, is embedded directly from setup.py.
-/

/-! ## Error model (spec section 7)

The specification fixes the error kinds of the core:
MalformedNumber, NumericOverflow, UnterminatedAttribute, TagMismatch,
MalformedArrayElement, UnexpectedEOF.  MalformedArrayElement carries the
index of the faulty literal. -/

inductive XmlError : Type where
  | MalformedNumber : XmlError
  | NumericOverflow : XmlError
  | UnterminatedAttribute : XmlError
  | TagMismatch : XmlError
  | MalformedArrayElement : Nat → XmlError
  | UnexpectedEOF : XmlError
deriving DecidableEq, Repr

/-! ## Character helpers -/

/-- Numeric value of an ASCII decimal digit character. -/
def digitVal (c : Char) : Nat := c.toNat - 48

/-- Value of a most-significant-first run of ASCII decimal digits. -/
def digitsToNat (ds : List Char) : Nat :=
  ds.foldl (fun a c => 10 * a + digitVal c) 0

/-- Strip an optional leading sign from a character span, returning
whether the span was negated together with the remaining characters. -/
def stripSign : List Char → Bool × List Char
  | '-' :: rest => (true, rest)
  | '+' :: rest => (false, rest)
  | s => (false, s)

/-! ## Fast integer conversion (spec section 4.1)

Modelled from the spec: the file src/fast_atoi.c named by setup.py is
absent from the snapshot.  Contract per the spec: an optional leading
plus or minus sign followed by one or more ASCII decimal digits and nothing else
produces the corresponding signed native integer; empty span, sign with
no digits, or any non-digit character after the sign fails with
MalformedNumber; magnitude exceeding the target integer width fails
with NumericOverflow, never wrapping or saturating.  The target native
width is modelled as a 64-bit two's-complement integer. -/

/-- Smallest representable native integer (64-bit two's complement). -/
def INT_MIN : Int := -(2 ^ 63)

/-- Largest representable native integer (64-bit two's complement). -/
def INT_MAX : Int := 2 ^ 63 - 1

/-- Modelled from the spec: fast integer conversion (src/fast_atoi.c is
absent from the snapshot).  Validates the grammar sign? digit+ over the
whole span, then range-checks against the native width. -/
def fastInt (s : List Char) : Except XmlError Int :=
  let p := stripSign s
  if p.2.isEmpty then .error .MalformedNumber
  else if p.2.all Char.isDigit then
    let v : Int := if p.1 then -(digitsToNat p.2 : Int) else (digitsToNat p.2 : Int)
    if v < INT_MIN ∨ INT_MAX < v then .error .NumericOverflow
    else .ok v
  else .error .MalformedNumber

/-- Whether a span matches the integer-literal grammar sign? digit+
with nothing else (spec section 4.1). -/
def validIntLit (s : List Char) : Bool :=
  let p := stripSign s
  !p.2.isEmpty && p.2.all Char.isDigit

/-- Mathematical value denoted by an integer literal: the sign applied
to the decimal value of its digit run. -/
def intLitValue (s : List Char) : Int :=
  let p := stripSign s
  if p.1 then -(digitsToNat p.2 : Int) else (digitsToNat p.2 : Int)

/-! ## Build configuration (src/setup.py)

Direct embedding of the only source file present in the snapshot.
setup.py starts the source list with the two C conversion files and
appends src/vasp.pyx when Cython.Build is importable, src/vasp.c
otherwise; cythonize is applied to the extension exactly in the former
case. -/

/-- The unconditional head of the source list in setup.py. -/
def baseSources : List String := ["src/fast_atoi.c", "src/fast_atof.c"]

/-- The source list of the DFTXMLParser.vasp extension as built by
setup.py, as a function of whether Cython.Build is importable. -/
def sources (use_cython : Bool) : List String :=
  baseSources ++ (if use_cython then ["src/vasp.pyx"] else ["src/vasp.c"])

/-- Whether setup.py applies cythonize to the extension list, as a
function of whether Cython.Build is importable. -/
def cythonizeApplied (use_cython : Bool) : Bool := use_cython

/-! ## Fast floating-point conversion (spec section 4.2)

Modelled from the spec: the file src/fast_atof.c named by setup.py is
absent from the snapshot.  Grammar per the spec: sign? digits?
('.' digits)? (('e' or 'E') sign? digits)? with at least one mantissa
digit present; grammar violations fail with MalformedNumber; values
whose magnitude exceeds the double-precision representable range
produce signed infinity rather than an error.  The parse is modelled
exactly: a literal denotes sign, a natural mantissa (the concatenated
integral and fractional digits) and a net power-of-ten exponent. -/

/-- Parse an optional fractional part: either the span does not start
with a dot, or a dot followed by at least one digit.  Returns the
fractional digits and the remaining span, or none on a bare dot. -/
def parseFrac : List Char → Option (List Char × List Char)
  | '.' :: rest =>
    let p := rest.span Char.isDigit
    if p.1.isEmpty then none else some p
  | s => some ([], s)

/-- Parse an optional exponent part occupying the whole remaining span:
empty means exponent 0; otherwise the marker e or E, an optional sign
and at least one digit, with nothing after. -/
def parseExpPart : List Char → Option Int
  | [] => some 0
  | c :: rest =>
    if c = 'e' ∨ c = 'E' then
      let sp := stripSign rest
      let dp := sp.2.span Char.isDigit
      if dp.1.isEmpty ∨ !dp.2.isEmpty then none
      else some (if sp.1 then -(digitsToNat dp.1 : Int) else (digitsToNat dp.1 : Int))
    else none

/-- Parse a whole span against the float-literal grammar.  On success
returns (negated, mantissa, net decimal exponent): the literal denotes
(-1)^negated * mantissa * 10^exponent exactly. -/
def parseFloatLit (s : List Char) : Option (Bool × Nat × Int) :=
  let sp := stripSign s
  let ip := sp.2.span Char.isDigit
  match parseFrac ip.2 with
  | none => none
  | some fp =>
    if ip.1.isEmpty && fp.1.isEmpty then none
    else
      match parseExpPart fp.2 with
      | none => none
      | some e => some (sp.1, digitsToNat (ip.1 ++ fp.1), e - (fp.1.length : Int))

/-- Whether a span matches the float-literal grammar of spec 4.2. -/
def validFloatLit (s : List Char) : Bool := (parseFloatLit s).isSome

/-- Largest finite double-precision magnitude, as a natural number:
(2^53 - 1) * 2^971 = (2 - 2^-52) * 2^1023. -/
def maxFiniteNat : Nat := (2 ^ 53 - 1) * 2 ^ 971

/-- Largest finite double-precision magnitude, as a rational. -/
def maxFinite : ℚ := ((2 : ℚ) ^ 53 - 1) * 2 ^ 971

/-- Exact magnitude denoted by a mantissa and a net power-of-ten
exponent. -/
def litMag (mant : Nat) (e : Int) : ℚ := (mant : ℚ) * (10 : ℚ) ^ e

/-- Integer-arithmetic test for double-precision range overflow of
mant * 10^e, avoiding rational arithmetic. -/
def overflowB (mant : Nat) (e : Int) : Bool :=
  if 0 ≤ e then maxFiniteNat < mant * 10 ^ e.toNat
  else maxFiniteNat * 10 ^ (-e).toNat < mant

/-- Result of the fast floating-point conversion: a finite exact value,
or a signed infinity on range overflow. -/
inductive FloatVal : Type where
  | finite : ℚ → FloatVal
  | inf : Bool → FloatVal
deriving DecidableEq, Repr

/-- Modelled from the spec: fast floating-point conversion
(src/fast_atof.c is absent from the snapshot).  Validates the grammar
over the whole span, then saturates to signed infinity when the exact
magnitude exceeds the double-precision representable range. -/
def fastFloat (s : List Char) : Except XmlError FloatVal :=
  match parseFloatLit s with
  | none => .error .MalformedNumber
  | some (neg, mant, e) =>
    if overflowB mant e then .ok (.inf neg)
    else .ok (.finite ((if neg then (-1 : ℚ) else 1) * litMag mant e))

/-! ## Token scanner (spec section 4.3)

Modelled from the spec: the tokenizer unit (src/vasp.pyx, src/vasp.c)
is absent from the snapshot.  The spec prescribes a character-driven
state machine over Outside, InTagName, InAttributes, InAttributeValue,
InText and InClosingTag, with double-quoted attribute values, self
closing tags treated as a StartTag synthetically followed by an EndTag,
and incremental (chunked) consumption whose suspend/resume must not be
observable.  AttrEq (between an attribute name's = and its opening
quote) and SelfClose (after the / of a self-closing tag) are the two
in-between positions of those transitions, carried as explicit modes;
comment and processing-instruction skipping is not exercised by any
claim and is left out of the model. -/

inductive Mode : Type where
  | outside : Mode
  | inText : Mode
  | inTagName : Mode
  | inClosingTag : Mode
  | inAttrs : Mode
  | attrEq : Mode
  | inAttrValue : Mode
  | selfClose : Mode
deriving DecidableEq, Repr

/-- Tokens produced by the scanner (spec section 3). -/
inductive Token : Type where
  | startTag : List Char → List (List Char × List Char) → Token
  | endTag : List Char → Token
  | text : List Char → Token
deriving DecidableEq, Repr

/-- Complete scanner state: the current mode, the partial-token
accumulator, the pending tag name, attribute name and attribute list,
and the tokens emitted so far.  All scanner state lives here; a parser
instance owns exactly one such value. -/
structure ScanState : Type where
  mode : Mode
  acc : List Char
  curName : List Char
  curAttrName : List Char
  curAttrs : List (List Char × List Char)
  toks : List Token
deriving DecidableEq, Repr

/-- Append an emitted token to the scanner state. -/
def emit (st : ScanState) (t : Token) : ScanState :=
  { st with toks := st.toks ++ [t] }

/-- Scanner whitespace: space, tab, newline (spec sections 4.3, 4.4). -/
def isWS (c : Char) : Bool := c = ' ' || c = '\t' || c = '\n'

/-- One character-driven transition of the scanner state machine,
modelled from spec section 4.3. -/
def scanStep (st : ScanState) (c : Char) : ScanState :=
  match st.mode with
  | .outside =>
    if c = '<' then { st with mode := .inTagName, acc := [] }
    else { st with mode := .inText, acc := [c] }
  | .inText =>
    if c = '<' then { emit st (.text st.acc) with mode := .inTagName, acc := [] }
    else { st with acc := st.acc ++ [c] }
  | .inTagName =>
    if c = '/' && st.acc.isEmpty then { st with mode := .inClosingTag }
    else if c = '>' then { emit st (.startTag st.acc []) with mode := .outside, acc := [] }
    else if c = '/' then { st with mode := .selfClose, curName := st.acc, curAttrs := [] }
    else if isWS c then { st with mode := .inAttrs, curName := st.acc, curAttrs := [], acc := [] }
    else { st with acc := st.acc ++ [c] }
  | .inClosingTag =>
    if c = '>' then { emit st (.endTag st.acc) with mode := .outside, acc := [] }
    else { st with acc := st.acc ++ [c] }
  | .inAttrs =>
    if c = '>' then { emit st (.startTag st.curName st.curAttrs) with mode := .outside, acc := [] }
    else if c = '/' then { st with mode := .selfClose }
    else if c = '=' then { st with mode := .attrEq, curAttrName := st.acc, acc := [] }
    else if isWS c then st
    else { st with acc := st.acc ++ [c] }
  | .attrEq =>
    if c = '"' then { st with mode := .inAttrValue, acc := [] }
    else st
  | .inAttrValue =>
    if c = '"' then
      { st with mode := .inAttrs, curAttrs := st.curAttrs ++ [(st.curAttrName, st.acc)], acc := [] }
    else { st with acc := st.acc ++ [c] }
  | .selfClose =>
    if c = '>' then
      { emit (emit st (.startTag st.curName st.curAttrs)) (.endTag st.curName) with
          mode := .outside, acc := [] }
    else st

/-- The state of a freshly opened parser instance. -/
def initState : ScanState := ⟨.outside, [], [], [], [], []⟩

/-- Feed one chunk of input characters to the scanner. -/
def feed (st : ScanState) (chunk : List Char) : ScanState :=
  chunk.foldl scanStep st

/-! ## Array extraction engine (spec section 4.4)

Modelled from the spec: the array-extraction unit (src/vasp.pyx,
src/vasp.c) is absent from the snapshot.  The element text is split on
runs of whitespace (a run of any positive length is one separator, and
leading/trailing whitespace produces no empty literal); each literal is
converted by the caller-declared conversion; a malformed literal fails
the whole extraction with MalformedArrayElement carrying its index. -/

/-- Split element text on whitespace runs into literal spans, producing
no empty literal. -/
def splitWS (s : List Char) : List (List Char) :=
  (s.splitOnP isWS).filter (fun l => !l.isEmpty)

/-- Whether a conversion result is a success. -/
def isOkE {ε α : Type} : Except ε α → Bool
  | .ok _ => true
  | .error _ => false

/-- Convert the literal spans of an array element in order, counting
indices from k; the first malformed literal aborts the extraction with
its index. -/
def goExtract {α : Type} (conv : List Char → Except XmlError α) (k : Nat) :
    List (List Char) → Except XmlError (List α)
  | [] => .ok []
  | t :: ts =>
    match conv t with
    | .error _ => .error (.MalformedArrayElement k)
    | .ok v =>
      match goExtract conv (k + 1) ts with
      | .error e => .error e
      | .ok vs => .ok (v :: vs)

/-- Modelled from the spec: array extraction over the text content of
an array-bearing element, for a caller-declared per-literal conversion
(fastInt or fastFloat). -/
def extractArray {α : Type} (conv : List Char → Except XmlError α) (text : List Char) :
    Except XmlError (List α) :=
  goExtract conv 0 (splitWS text)

/-- The array extraction results carried by the text tokens of a token
sequence, under the float conversion: the observable array contents of
a parse. -/
def arrayViews (ts : List Token) : List (Except XmlError (List FloatVal)) :=
  ts.filterMap (fun t =>
    match t with
    | .text s => some (extractArray fastFloat s)
    | _ => none)

/-! ## Element dispatch and context stack (spec section 4.5)

Modelled from the spec: the dispatch unit (src/vasp.pyx, src/vasp.c) is
absent from the snapshot.  On StartTag push the name; on EndTag compare
with the top of the stack, pop on equality and fail with TagMismatch
otherwise; Text tokens leave the stack unchanged. -/

/-- One dispatch transition of the context stack for one token. -/
def dispatchStep (stack : List (List Char)) : Token → Except XmlError (List (List Char))
  | .startTag n _ => .ok (n :: stack)
  | .endTag n =>
    match stack with
    | [] => .error .TagMismatch
    | top :: rest => if n = top then .ok rest else .error .TagMismatch
  | .text _ => .ok stack

/-- Run the dispatch over a token sequence from a given stack. -/
def runDispatch (stack : List (List Char)) : List Token → Except XmlError (List (List Char))
  | [] => .ok stack
  | t :: ts =>
    match dispatchStep stack t with
    | .error e => .error e
    | .ok st2 => runDispatch st2 ts

/-- Number of StartTag tokens in a sequence. -/
def startCount (ts : List Token) : Nat :=
  ts.countP (fun t => match t with | .startTag _ _ => true | _ => false)

/-- Number of EndTag tokens in a sequence. -/
def endCount (ts : List Token) : Nat :=
  ts.countP (fun t => match t with | .endTag _ => true | _ => false)

/-- Scan a whole document and run the context-stack dispatch over the
resulting token sequence. -/
def checkTags (s : List Char) : Except XmlError (List (List Char)) :=
  runDispatch [] (feed initState s).toks

/-! ## Theorems -/

/-- C10: in setup.py, the source list of the DFTXMLParser.vasp
extension always contains src/fast_atoi.c and src/fast_atof.c, plus
exactly one of src/vasp.pyx (appended, with cythonize applied, exactly
when Cython.Build is importable) or src/vasp.c (otherwise); no other
combination of the two is ever produced. -/
theorem setup_sources_exact :
    ∀ (use_cython : Bool),
      "src/fast_atoi.c" ∈ sources use_cython ∧
      "src/fast_atof.c" ∈ sources use_cython ∧
      ("src/vasp.pyx" ∈ sources use_cython ↔ use_cython = true) ∧
      ("src/vasp.c" ∈ sources use_cython ↔ use_cython = false) ∧
      (cythonizeApplied use_cython = true ↔ use_cython = true) ∧
      sources use_cython =
        baseSources ++ (if use_cython then ["src/vasp.pyx"] else ["src/vasp.c"]) := by
  intro b
  cases b <;> simp [sources, baseSources, cythonizeApplied]

/-- C3: feeding an input buffer to the scanner split at any byte offset
into two chunks yields exactly the same scanner state, hence the same
token sequence and the same array contents, as feeding the whole
buffer at once. -/
theorem feed_chunk_invariant :
    ∀ (buf : List Char) (i : Nat),
      feed (feed initState (buf.take i)) (buf.drop i) = feed initState buf ∧
      (feed (feed initState (buf.take i)) (buf.drop i)).toks = (feed initState buf).toks ∧
      arrayViews (feed (feed initState (buf.take i)) (buf.drop i)).toks =
        arrayViews (feed initState buf).toks := by
  intro buf i
  have h : feed (feed initState (buf.take i)) (buf.drop i) = feed initState buf := by
    rw [feed, feed, feed, ← List.foldl_append, List.take_append_drop]
  exact ⟨h, by rw [h], by rw [h]⟩

/-- C9: two parses of the same buffer by two fresh parser instances
produce identical final states, token sequences and array contents:
all scanner state lives in the per-instance ScanState, so a fresh
instance fully determines the result of a parse. -/
theorem fresh_instances_agree :
    ∀ (buf : List Char) (s1 s2 : ScanState), s1 = initState → s2 = initState →
      feed s1 buf = feed s2 buf ∧
      (feed s1 buf).toks = (feed s2 buf).toks ∧
      arrayViews (feed s1 buf).toks = arrayViews (feed s2 buf).toks := by
  intro buf s1 s2 h1 h2
  subst h1
  subst h2
  exact ⟨rfl, rfl, rfl⟩

/-- Witness for C9 at a concrete buffer. -/
theorem fresh_instances_agree_witness :
    (feed initState "<a>1 2</a>".data).toks = (feed initState "<a>1 2</a>".data).toks :=
  (fresh_instances_agree "<a>1 2</a>".data initState initState rfl rfl).2.1

/-- C4: on any span violating the respective literal grammar (empty
span, bare sign, or trailing garbage), the fast integer conversion and
the fast floating-point conversion both fail with MalformedNumber and
never return a value. -/
theorem fast_conversions_malformed :
    ∀ (s : List Char),
      (validIntLit s = false → fastInt s = .error .MalformedNumber) ∧
      (validFloatLit s = false → fastFloat s = .error .MalformedNumber) := by
  intro s
  constructor
  · intro h
    cases hE : (stripSign s).2.isEmpty with
    | true => simp [fastInt, hE]
    | false =>
      cases hA : (stripSign s).2.all Char.isDigit with
      | true => simp [validIntLit, hE, hA] at h
      | false => simp [fastInt, hE, hA]
  · intro h
    cases hP : parseFloatLit s with
    | none => simp [fastFloat, hP]
    | some v => simp [validFloatLit, hP] at h

/-- Witness for C4 at the bare-sign span. -/
theorem fast_conversions_malformed_witness :
    fastInt "+".data = .error .MalformedNumber ∧
    fastFloat "+".data = .error .MalformedNumber :=
  ⟨(fast_conversions_malformed "+".data).1 (by rfl),
   (fast_conversions_malformed "+".data).2 (by rfl)⟩

/-- C1: on any span matching the integer-literal grammar (optional
sign, one or more decimal digits, nothing else) whose denoted value n
fits the native width, the fast integer conversion returns exactly n. -/
theorem fastInt_exact_on_valid :
    ∀ (s : List Char) (n : Int), validIntLit s = true → intLitValue s = n →
      INT_MIN ≤ n → n ≤ INT_MAX → fastInt s = .ok n := by
  intro s n hv hval h1 h2
  unfold validIntLit at hv
  simp only [Bool.and_eq_true, Bool.not_eq_true'] at hv
  unfold intLitValue at hval
  simp only at hval
  have hmin : INT_MIN = -9223372036854775808 := by norm_num [INT_MIN]
  have hmax : INT_MAX = 9223372036854775807 := by norm_num [INT_MAX]
  simp only [fastInt, hv.1, hv.2, Bool.false_eq_true, if_false, if_true, hval]
  rw [if_neg]
  rw [hmin] at h1
  rw [hmax] at h2
  rw [hmin, hmax]
  omega

/-- Witness for C1 at the literal -42. -/
theorem fastInt_exact_on_valid_witness :
    validIntLit "-42".data = true ∧ fastInt "-42".data = .ok (-42) :=
  ⟨by rfl, fastInt_exact_on_valid "-42".data (-42) (by rfl) (by decide) (by decide) (by decide)⟩

/-- C5: on any span matching the integer-literal grammar whose denoted
value lies outside the native width, the fast integer conversion fails
with NumericOverflow; it never returns a wrapped or saturated value. -/
theorem fastInt_overflow :
    ∀ (s : List Char), validIntLit s = true →
      (intLitValue s < INT_MIN ∨ INT_MAX < intLitValue s) →
      fastInt s = .error .NumericOverflow := by
  intro s hv hr
  unfold validIntLit at hv
  simp only [Bool.and_eq_true, Bool.not_eq_true'] at hv
  unfold intLitValue at hr
  simp only at hr
  simp only [fastInt, hv.1, hv.2, Bool.false_eq_true, if_false, if_true]
  rw [if_pos hr]

/-- Witness for C5 at the literal 9223372036854775808 = 2^63, one past
the largest representable value. -/
theorem fastInt_overflow_witness :
    validIntLit "9223372036854775808".data = true ∧
    fastInt "9223372036854775808".data = .error .NumericOverflow :=
  ⟨by rfl, fastInt_overflow "9223372036854775808".data (by rfl) (by decide)⟩

/-- The natural and rational forms of the largest finite double agree. -/
theorem maxFinite_cast : (maxFiniteNat : ℚ) = maxFinite := by
  norm_num [maxFiniteNat, maxFinite]

/-- The integer-arithmetic overflow test decides exactly whether the
exact magnitude of a literal exceeds the double-precision range. -/
theorem overflowB_iff (mant : Nat) (e : Int) :
    overflowB mant e = true ↔ maxFinite < litMag mant e := by
  unfold overflowB litMag
  by_cases he : 0 ≤ e
  · simp only [he, if_true, decide_eq_true_eq]
    have hz : (10 : ℚ) ^ e = (10 : ℚ) ^ e.toNat := by
      rw [← zpow_natCast]
      congr 1
      omega
    rw [hz, ← maxFinite_cast]
    rw [show ((mant : ℚ) * (10 : ℚ) ^ e.toNat) = (((mant * 10 ^ e.toNat : Nat) : ℚ)) by push_cast; ring]
    exact ⟨fun h => Nat.cast_lt.2 h, fun h => Nat.cast_lt.1 h⟩
  · simp only [he, if_false, decide_eq_true_eq]
    obtain ⟨k, hk⟩ : ∃ k : Nat, e = -(k : Int) := ⟨(-e).toNat, by omega⟩
    subst hk
    rw [show (-(-(k : Int))).toNat = k by omega]
    have hz : (10 : ℚ) ^ (-(k : Int)) = ((10 : ℚ) ^ k)⁻¹ := by
      rw [zpow_neg, zpow_natCast]
    have hpos : (0 : ℚ) < 10 ^ k := by positivity
    rw [hz, ← div_eq_mul_inv, lt_div_iff₀ hpos, ← maxFinite_cast]
    rw [show ((maxFiniteNat : ℚ) * (10 : ℚ) ^ k) = (((maxFiniteNat * 10 ^ k : Nat) : ℚ)) by push_cast; ring]
    exact ⟨fun h => Nat.cast_lt.2 h, fun h => Nat.cast_lt.1 h⟩

/-- C6: on any span matching the float-literal grammar whose exact
magnitude exceeds the double-precision representable range, the fast
floating-point conversion succeeds and returns the infinity carrying
the literal's sign, rather than failing with an error. -/
theorem fastFloat_overflow_infinity :
    ∀ (s : List Char) (neg : Bool) (mant : Nat) (e : Int),
      parseFloatLit s = some (neg, mant, e) → maxFinite < litMag mant e →
      fastFloat s = .ok (.inf neg) := by
  intro s neg mant e hp hq
  have hb : overflowB mant e = true := (overflowB_iff mant e).2 hq
  simp [fastFloat, hp, hb]

/-- Witness for C6 at the literal 2e308, whose magnitude 2 * 10^308
exceeds the largest finite double. -/
theorem fastFloat_overflow_infinity_witness :
    parseFloatLit "2e308".data = some (false, 2, 308) ∧
    fastFloat "2e308".data = .ok (.inf false) :=
  ⟨by rfl, fastFloat_overflow_infinity "2e308".data false 2 308 (by rfl)
    (by
      unfold maxFinite litMag
      rw [show ((308 : Int)) = ((308 : Nat) : Int) by norm_num, zpow_natCast]
      norm_num)⟩

/-- A malformed literal at index i of a literal list, preceded by
well-formed literals only, aborts the indexed conversion with
MalformedArrayElement at offset k + i. -/
theorem goExtract_malformed {α : Type} (conv : List Char → Except XmlError α) :
    ∀ (ts : List (List Char)) (k i : Nat) (lit : List Char),
      ts[i]? = some lit → isOkE (conv lit) = false →
      (ts.take i).all (fun l => isOkE (conv l)) = true →
      goExtract conv k ts = .error (.MalformedArrayElement (k + i)) := by
  intro ts
  induction ts with
  | nil => intro k i lit hget; simp at hget
  | cons t ts ih =>
    intro k i lit hget hbad hpre
    cases i with
    | zero =>
      simp only [List.getElem?_cons_zero, Option.some.injEq] at hget
      rw [← hget] at hbad
      cases hc : conv t with
      | ok v => rw [hc] at hbad; simp [isOkE] at hbad
      | error err => simp [goExtract, hc]
    | succ i =>
      simp only [List.getElem?_cons_succ] at hget
      simp only [List.take_succ_cons, List.all_cons, Bool.and_eq_true] at hpre
      cases hc : conv t with
      | error err => rw [hc] at hpre; simp [isOkE] at hpre
      | ok v =>
        have hrec := ih (k + 1) i lit hget hbad hpre.2
        simp only [goExtract, hc, hrec]
        have hk : k + 1 + i = k + (i + 1) := by omega
        rw [hk]

/-- C7: whenever the text of an array-bearing element contains a
literal failing the declared conversion, preceded only by literals that
convert, array extraction fails with MalformedArrayElement carrying the
index of the faulty literal; no partial array is ever returned as a
success. -/
theorem extractArray_malformed_index :
    ∀ {α : Type} (conv : List Char → Except XmlError α) (text : List Char)
      (i : Nat) (lit : List Char),
      (splitWS text)[i]? = some lit → isOkE (conv lit) = false →
      ((splitWS text).take i).all (fun l => isOkE (conv l)) = true →
      extractArray conv text = .error (.MalformedArrayElement i) := by
  intro α conv text i lit h1 h2 h3
  have h := goExtract_malformed conv (splitWS text) 0 i lit h1 h2 h3
  simpa [extractArray] using h

set_option exponentiation.threshold 1100 in
/-- Witness for C7: the middle entry of "1.0 abc 3.0" is malformed and
extraction under the float conversion fails at index 1. -/
theorem extractArray_malformed_index_witness :
    isOkE (fastFloat "abc".data) = false ∧
    extractArray fastFloat "1.0 abc 3.0".data = .error (.MalformedArrayElement 1) :=
  ⟨by rfl,
   extractArray_malformed_index fastFloat "1.0 abc 3.0".data 1 "abc".data
     (by rfl) (by rfl) (by decide)⟩

/-- Depth invariant of the context stack: a successful dispatch run
changes the stack depth by the number of StartTag tokens minus the
number of EndTag tokens it processed. -/
theorem runDispatch_depth :
    ∀ (ts : List Token) (stack res : List (List Char)),
      runDispatch stack ts = .ok res →
      res.length + endCount ts = stack.length + startCount ts := by
  intro ts
  induction ts with
  | nil =>
    intro stack res h
    simp only [runDispatch, Except.ok.injEq] at h
    subst h
    simp [startCount, endCount]
  | cons t ts ih =>
    intro stack res h
    cases t with
    | startTag n attrs =>
      simp only [runDispatch, dispatchStep] at h
      have := ih (n :: stack) res h
      simp only [startCount, endCount, List.countP_cons] at *
      simp at *
      omega
    | endTag n =>
      cases stack with
      | nil => simp [runDispatch, dispatchStep] at h
      | cons top rest =>
        by_cases hn : n = top
        · simp only [runDispatch, dispatchStep, hn, if_pos rfl] at h
          have := ih rest res h
          simp only [startCount, endCount, List.countP_cons] at *
          simp at *
          omega
        · simp [runDispatch, dispatchStep, hn] at h
    | text s =>
      simp only [runDispatch, dispatchStep] at h
      have := ih stack res h
      simp only [startCount, endCount, List.countP_cons] at *
      simp at *
      omega

/-- C8: an EndTag whose name differs from the element name on top of
the context stack fails the dispatch with TagMismatch; on successful
runs the stack depth tracks the nesting depth exactly (push on
StartTag, pop on matching EndTag); and the document <a><b></a> fails
with TagMismatch. -/
theorem dispatch_mismatch_and_depth :
    (∀ (stack : List (List Char)) (top n : List Char), n ≠ top →
       dispatchStep (top :: stack) (.endTag n) = .error .TagMismatch) ∧
    (∀ (ts : List Token) (stack res : List (List Char)),
       runDispatch stack ts = .ok res →
       res.length + endCount ts = stack.length + startCount ts) ∧
    checkTags "<a><b></a>".data = .error .TagMismatch := by
  refine ⟨?_, runDispatch_depth, ?_⟩
  · intro stack top n h
    simp [dispatchStep, h]
  · rfl

/-- Witness for C8: an EndTag b against top-of-stack a is a
TagMismatch. -/
theorem dispatch_mismatch_and_depth_witness :
    dispatchStep [['a']] (.endTag ['b']) = .error .TagMismatch :=
  dispatch_mismatch_and_depth.1 [] ['a'] ['b'] (by decide)
